import Mathlib

/-!
Verification of the JobLink resume-management backend.

The development shallowly embeds the two source modules:

* `src/backend/controllers/resume.controller.js` — the upload orchestrator
  (`uploadResume`), CRUD handlers (`getResume`, `updateResumeAnalysis`,
  `deleteResume`) and the pure score calculator (`calculateOverallScore`);
* `src/unnamed/part_000` (the Python analysis-service HTTP client) —
  `analyzeResumeWithAI`, `calculateJobMatch`, `extractSkills`,
  `checkPythonAPIHealth`.

External collaborators (object storage, the relational store, the remote
analysis service reached through axios) are modelled by environment records
that carry each collaborator's outcome for the request under consideration;
each handler is a pure function from the request and that environment to an
HTTP response together with the ordered list of externally visible effects
it performed.  JavaScript truthiness on the optional values the code tests
(`!resumeFile`, `analysis.experience_years`, `resume.storage_path`) is made
explicit.  JSON numbers flowing in from the remote service are modelled as
`Int` (the code only ever doubles, adds, and clamps them).
-/

set_option linter.unusedVariables false

namespace JobLink

/-- JS falsiness of an optional string: `undefined` / `null` / `""` are
falsy, every other string is truthy. -/
def jsFalsyStr : Option String → Bool
  | none => true
  | some s => s == ""

/-- JS `x || d` for an optional string `x`: the default is taken when `x`
is absent or empty (falsy). -/
def jsOrStr (x : Option String) (d : String) : String :=
  match x with
  | none => d
  | some s => if s == "" then d else s

/-- The JSON object returned by the analysis service for
`POST /api/analyze/resume`.  Every field may be absent, which the
controller compensates for with `|| default` when building the stored
`analysis_data`.  `experience_years` is an arbitrary JSON number. -/
structure AIAnalysis where
  skills : Option (List String)
  categorized_skills : Option (List (String × List String))
  experience_years : Option Int
  education : Option (List String)
  certifications : Option (List String)
  summary : Option String
deriving DecidableEq

/-- `calculateOverallScore` from `resume.controller.js`:

```js
let score = 50;
if (analysis.skills?.length)      score += Math.min(analysis.skills.length * 2, 30);
if (analysis.experience_years)    score += Math.min(analysis.experience_years * 2, 20);
return Math.min(score, 100);
```

`analysis.skills?.length` is truthy exactly when `skills` is present and
non-empty; `analysis.experience_years` is truthy exactly when present and
non-zero. -/
def calculateOverallScore (analysis : AIAnalysis) : Int :=
  let score : Int := 50
  let score :=
    if (analysis.skills.map List.length).getD 0 ≠ 0 then
      score + min (((analysis.skills.getD []).length : Int) * 2) 30
    else score
  let score :=
    if analysis.experience_years.getD 0 ≠ 0 then
      score + min (analysis.experience_years.getD 0 * 2) 20
    else score
  min score 100

/-- The Score Calculator formula exactly as the spec states it:
`score = 50 + min(skillCount * 2, 30) + min(experienceYears * 2, 20)`,
clamped to 100. -/
def specScore (skillCount : Nat) (experienceYears : Int) : Int :=
  min 100 (50 + min ((skillCount : Int) * 2) 30 + min (experienceYears * 2) 20)

/-- Closed form of `calculateOverallScore`: the truthiness guards in the
source coincide with the unguarded formula because both skipped summands
are zero at the guard's falsy values. -/
theorem calculateOverallScore_eq (a : AIAnalysis) :
    calculateOverallScore a =
      min (50 + min (((a.skills.getD []).length : Int) * 2) 30
          + min (a.experience_years.getD 0 * 2) 20) 100 := by
  obtain ⟨s, c, e, ed, ce, su⟩ := a
  cases s <;> cases e <;>
    simp [calculateOverallScore] <;>
    split_ifs <;> simp_all

/-- Lower bound of the score: 50 whenever the experience-years value the
service returned (defaulted to 0) is non-negative. -/
theorem calculateOverallScore_lower (a : AIAnalysis)
    (h : 0 ≤ a.experience_years.getD 0) : 50 ≤ calculateOverallScore a := by
  rw [calculateOverallScore_eq]
  have hs : (0 : Int) ≤ min (((a.skills.getD []).length : Int) * 2) 30 := by
    have : (0 : Int) ≤ ((a.skills.getD []).length : Int) * 2 := by positivity
    omega
  omega

/-- Upper bound of the score: the final clamp caps it at 100. -/
theorem calculateOverallScore_upper (a : AIAnalysis) :
    calculateOverallScore a ≤ 100 := by
  rw [calculateOverallScore_eq]; omega

/-! ## Analysis Service Client (`src/unnamed/part_000`, the pythonAPI module)

Each exported function wraps a single axios call in `try/catch`.  The axios
call's outcome for the request at hand is passed in explicitly: `.ok d`
means the HTTP call resolved with `response.data = d`; `.error msg` covers
every rejection (timeout, network error, non-2xx status, malformed body the
client library rejects).  The `catch` branch of each source function is the
`.error` branch here. -/

/-- `analyzeResumeWithAI(resumeText, fileName)`.  Before the axios call the
source evaluates `fileName.endsWith('.pdf')`; when `fileName` is absent
that throws inside the `try`, so the `catch` returns `null` without any
HTTP call.  On a resolved call it returns `response.data`; on any
rejection the `catch` logs and returns `null`. -/
def analyzeResumeWithAI (resumeText : String) (fileName : Option String)
    (axiosOutcome : Except String AIAnalysis) : Option AIAnalysis :=
  match fileName with
  | none => none
  | some _ =>
    match axiosOutcome with
    | .ok data => some data
    | .error _ => none

/-- `calculateJobMatch(...)`: returns `response.data` on success, `null` on
any failure.  The shape of the match object does not matter to the client,
so it is a type parameter. -/
def calculateJobMatch (α : Type) (axiosOutcome : Except String α) : Option α :=
  match axiosOutcome with
  | .ok data => some data
  | .error _ => none

/-- Response shape of `POST /api/analyze/extract-skills`. -/
structure SkillsResp where
  skills : List String
  categorized : List (String × List String)
  count : Nat
deriving DecidableEq

/-- `extractSkills(text)`: returns `response.data` on success and the
sentinel `\x7bskills: [], categorized: \x7b\x7d, count: 0\x7d` on any failure. -/
def extractSkills (axiosOutcome : Except String SkillsResp) : SkillsResp :=
  match axiosOutcome with
  | .ok data => data
  | .error _ => { skills := [], categorized := [], count := 0 }

/-- Response body of `GET /health`; `status` may be absent. -/
structure HealthResp where
  status : Option String
deriving DecidableEq

/-- `checkPythonAPIHealth()`: `response.data.status === 'healthy'` on a
resolved call, `false` on any failure. -/
def checkPythonAPIHealth (axiosOutcome : Except String HealthResp) : Bool :=
  match axiosOutcome with
  | .ok data => data.status == some "healthy"
  | .error _ => false

/-! ## Resume controller (`src/backend/controllers/resume.controller.js`) -/

/-- Result of a resolved `uploadToSupabase` call, per the spec's Object
Store Client contract: public URL, storage path, a generated file name and
the file size. -/
structure UploadResult where
  publicUrl : String
  path : String
  fileName : String
  fileSize : Nat
deriving DecidableEq

/-- The `analysis_data` JSON object the upload path persists: every
AI-provided field defaulted when absent, plus the computed score and the
analysis timestamp. -/
structure AnalysisData where
  skills : List String
  categorized_skills : List (String × List String)
  experience_years : Int
  education : List String
  certifications : List String
  summary : String
  score : Int
  analyzed_at : String
deriving DecidableEq

/-- Building `analysisData` from a non-null AI response, as in the source:
each field `aiAnalysis.f || default`, `score: calculateOverallScore(aiAnalysis)`,
`analyzed_at: new Date().toISOString()`. -/
def buildAnalysisData (aiAnalysis : AIAnalysis) (nowIso : String) : AnalysisData :=
  { skills := aiAnalysis.skills.getD []
    categorized_skills := aiAnalysis.categorized_skills.getD []
    experience_years := aiAnalysis.experience_years.getD 0
    education := aiAnalysis.education.getD []
    certifications := aiAnalysis.certifications.getD []
    summary := jsOrStr aiAnalysis.summary ""
    score := calculateOverallScore aiAnalysis
    analyzed_at := nowIso }

/-- A supabase postgrest error object; only its `message` is surfaced. -/
structure DBError where
  message : String
deriving DecidableEq

/-- The row payload sent to `supabase.from('resumes').insert(...)`. -/
structure InsertRow where
  candidate_id : String
  resume_url : String
  storage_path : String
  file_name : String
  file_size : Nat
  analysis_data : Option AnalysisData
deriving DecidableEq

/-- A row of the `resumes` table as returned by the store (`insert ...
.select().single()` echoes the inserted row with its generated id). -/
structure ResumeRecord where
  id : String
  candidate_id : String
  resume_url : String
  storage_path : String
  file_name : String
  file_size : Nat
  analysis_data : Option AnalysisData
deriving DecidableEq

/-- The externally visible calls a handler makes, in order.
`analysisCall` marks the invocation of the analysis client (step 2 of the
upload); reads used only to build the response are not tracked. -/
inductive Effect where
  | storageUpload (bucket key : String)
  | analysisCall
  | dbInsert (row : InsertRow)
  | dbDelete (resumeId candidateId : String)
  | dbUpdate (resumeId candidateId : String) (analysisData : Option AnalysisData)
  | storageDelete (path : String)
deriving DecidableEq

/-- `extractTextFromBase64` is an explicit stub in the source: it returns a
placeholder string for every input and never throws. -/
def extractTextFromBase64 (base64Content : String) (fileName : Option String) : String :=
  "Placeholder resume text"

/-- `resumeFile.includes(',') ? resumeFile.split(',')[1] : resumeFile` —
strip an optional data-URL prefix before text extraction. -/
def stripDataUrlPrefix (resumeFile : String) : String :=
  if resumeFile.contains ',' then (resumeFile.splitOn ",").getD 1 "" else resumeFile

/-- The upload request: `req.user.id` and the JSON body
`\x7bresumeFile, fileName\x7d`, either body field possibly absent. -/
structure UploadReq where
  userId : String
  resumeFile : Option String
  fileName : Option String
deriving DecidableEq

/-- Collaborator outcomes for one upload request.

`deleteOk` — Modelled from the spec: `deleteFromSupabase` lives in
`src/backend/lib/supabaseStorage.js`, which is not part of the sources;
per the spec the compensating delete is best-effort, idempotent and never
raises ("its own failure is logged, not propagated"), so only its
success/failure flag appears here and the orchestrator ignores it. -/
structure UploadEnv where
  uploadResult : Except String UploadResult
  now : Nat
  axiosAnalysis : Except String AIAnalysis
  nowIso : String
  dbError : Option DBError
  genId : String
  deleteOk : Bool

/-- Responses `uploadResume` can produce. -/
inductive UploadResponse where
  | badRequest (message : String)
  | created (record : ResumeRecord)
  | serverError (message errMsg : String)
deriving DecidableEq

/-- HTTP status of an upload response. -/
def UploadResponse.statusCode : UploadResponse → Nat
  | .badRequest _ => 400
  | .created _ => 201
  | .serverError _ _ => 500

/-- The upload orchestrator `uploadResume`:

1. `if (!resumeFile) return 400 'Resume file is required'` — before any
   side effect;
2. `uploadToSupabase(resumeFile, 'resumes', 'resume_<id>_<now>')` — a
   rejection escapes to the outer `catch` (500), with no DB row;
3. the inner `try`: strip prefix, extract text, call the analysis client;
   `analyzeResumeWithAI` never rejects but returns `null` on failure, and
   the subsequent `aiAnalysis.skills` access on `null` throws into the
   inner `catch`, leaving `analysisData = null`;
4. insert the row; on a DB error, compensate by deleting the uploaded
   object and answer 400 with the DB's message; otherwise 201 with the
   inserted row. -/
def uploadResume (req : UploadReq) (env : UploadEnv) :
    UploadResponse × List Effect :=
  if jsFalsyStr req.resumeFile then
    (.badRequest "Resume file is required", [])
  else
    let key := "resume_" ++ req.userId ++ "_" ++ toString env.now
    match env.uploadResult with
    | .error e => (.serverError "Server error" e, [.storageUpload "resumes" key])
    | .ok uploadResult =>
      let base64Content := stripDataUrlPrefix (req.resumeFile.getD "")
      let resumeText := extractTextFromBase64 base64Content req.fileName
      let analysisData : Option AnalysisData :=
        match analyzeResumeWithAI resumeText req.fileName env.axiosAnalysis with
        | none => none
        | some aiAnalysis => some (buildAnalysisData aiAnalysis env.nowIso)
      let payload : InsertRow :=
        { candidate_id := req.userId
          resume_url := uploadResult.publicUrl
          storage_path := uploadResult.path
          file_name := jsOrStr req.fileName uploadResult.fileName
          file_size := uploadResult.fileSize
          analysis_data := analysisData }
      match env.dbError with
      | some e =>
        (.badRequest e.message,
          [.storageUpload "resumes" key, .analysisCall, .dbInsert payload,
           .storageDelete uploadResult.path])
      | none =>
        (.created
          { id := env.genId
            candidate_id := payload.candidate_id
            resume_url := payload.resume_url
            storage_path := payload.storage_path
            file_name := payload.file_name
            file_size := payload.file_size
            analysis_data := payload.analysis_data },
          [.storageUpload "resumes" key, .analysisCall, .dbInsert payload])

/-- Store outcomes for one `getResume` request: the `resumes` row selected
by id (`error || !data` collapses to `none`), and the caller's
`profiles.user_type` (`none` when the profile lookup finds no row or the
field is null — the source discards the lookup's error object). -/
structure GetEnv where
  resumeRow : Option ResumeRecord
  profileUserType : Option String

/-- Responses `getResume` can produce. -/
inductive GetResponse where
  | notFound (message : String)
  | forbidden (message : String)
  | ok (data : ResumeRecord)
deriving DecidableEq

/-- HTTP status of a get-one response. -/
def GetResponse.statusCode : GetResponse → Nat
  | .notFound _ => 404
  | .forbidden _ => 403
  | .ok _ => 200

/-- `getResume`: 404 when the row is missing; 403 when
`profile?.user_type === 'candidate' && data.candidate_id !== userId`;
otherwise 200 with the row. -/
def getResume (resumeId userId : String) (env : GetEnv) : GetResponse :=
  match env.resumeRow with
  | none => .notFound "Resume not found"
  | some data =>
    if env.profileUserType == some "candidate" && data.candidate_id != userId then
      .forbidden "Unauthorized"
    else
      .ok data

/-- Store outcomes for one `updateResumeAnalysis` request: the update's
error (the store signals "no row matched the (id, candidateId) scoping"
through this error as well), and, on success, the matched row before the
update. -/
structure UpdateEnv where
  dbError : Option DBError
  baseRow : ResumeRecord

/-- Responses `updateResumeAnalysis` can produce. -/
inductive UpdateResponse where
  | badRequest (message : String)
  | ok (data : ResumeRecord)
deriving DecidableEq

/-- HTTP status of an update response. -/
def UpdateResponse.statusCode : UpdateResponse → Nat
  | .badRequest _ => 400
  | .ok _ => 200

/-- `updateResumeAnalysis`: overwrite `analysis_data` with the
caller-supplied body value for the row scoped to `(resumeId, candidateId)`;
400 with the store's message on error, otherwise 200 with the updated
row. The payload is persisted exactly as received. -/
def updateResumeAnalysis (resumeId candidateId : String)
    (analysisData : Option AnalysisData) (env : UpdateEnv) :
    UpdateResponse × List Effect :=
  match env.dbError with
  | some e => (.badRequest e.message, [.dbUpdate resumeId candidateId analysisData])
  | none =>
    (.ok { env.baseRow with
            id := resumeId
            candidate_id := candidateId
            analysis_data := analysisData },
      [.dbUpdate resumeId candidateId analysisData])

/-- The row `deleteResume` selects: only `storage_path`, possibly null. -/
structure DeleteRow where
  storage_path : Option String
deriving DecidableEq

/-- Store outcomes for one `deleteResume` request: the `(id, candidateId)`
scoped select (`error || !resume` collapses to `none`), and —
Modelled from the spec: `deleteFromSupabase` is not part of the sources and
per the spec never raises — the storage deletion's ignored outcome flag. -/
structure DeleteEnv where
  selectRow : Option DeleteRow
  storageDeleteOk : Bool

/-- Responses `deleteResume` can produce. -/
inductive DeleteResponse where
  | notFound (message : String)
  | ok (message : String)
deriving DecidableEq

/-- HTTP status of a delete response. -/
def DeleteResponse.statusCode : DeleteResponse → Nat
  | .notFound _ => 404
  | .ok _ => 200

/-- `deleteResume`: 404 when the scoped select finds nothing, and then no
deletion of any kind is attempted; otherwise delete the DB row first, then
(only when `storage_path` is truthy) the storage object, and answer 200
regardless of the storage deletion's outcome. -/
def deleteResume (resumeId candidateId : String) (env : DeleteEnv) :
    DeleteResponse × List Effect :=
  match env.selectRow with
  | none => (.notFound "Resume not found", [])
  | some resume =>
    (.ok "Resume deleted successfully",
      [Effect.dbDelete resumeId candidateId] ++
        (if jsFalsyStr resume.storage_path then []
         else [Effect.storageDelete (resume.storage_path.getD "")]))

/-! ## Claims -/

/-- C3: the score calculator is the pure function
`score(analysis) = min(100, 50 + min(skillCount * 2, 30) + min(experienceYears * 2, 20))`;
in particular, for an analysis with 5 skills and 3 years of experience it
returns 66. -/
theorem score_formula_and_example :
    (∀ a : AIAnalysis,
      calculateOverallScore a =
        specScore (a.skills.getD []).length (a.experience_years.getD 0)) ∧
    calculateOverallScore
      { skills := some ["python", "sql", "react", "docker", "git"]
        categorized_skills := none
        experience_years := some 3
        education := none
        certifications := none
        summary := none } = 66 := by
  constructor
  · intro a
    rw [calculateOverallScore_eq]
    unfold specScore
    omega
  · decide

/-- An analysis response carrying a negative `experience_years`, as the
remote service is free to return: the guard `if (analysis.experience_years)`
is truthy at `-30`, so `Math.min(-60, 20) = -60` is added to the score. -/
def negativeYearsAnalysis : AIAnalysis :=
  { skills := some []
    categorized_skills := none
    experience_years := some (-30)
    education := none
    certifications := none
    summary := none }

/-- C4 counterexample: the claim says the computed score lies in [50,100]
for any experience-years value the analysis service may return, but at
`experience_years = -30` the score is `-10`. -/
theorem score_below_range_counterexample :
    calculateOverallScore negativeYearsAnalysis = -10 ∧
    ¬ (50 ≤ calculateOverallScore negativeYearsAnalysis ∧
       calculateOverallScore negativeYearsAnalysis ≤ 100) := by
  decide

/-- C4 (amended): the computed score is at most 100 always and at least 50
whenever the experience-years value (defaulted to 0 when absent) is
non-negative; it is monotonically non-decreasing in both the skill count
and the experience years. -/
theorem score_bounds_and_monotonicity (a : AIAnalysis) :
    calculateOverallScore a ≤ 100 ∧
    (0 ≤ a.experience_years.getD 0 → 50 ≤ calculateOverallScore a) ∧
    (∀ l₁ l₂ : List String, l₁.length ≤ l₂.length →
      calculateOverallScore { a with skills := some l₁ } ≤
        calculateOverallScore { a with skills := some l₂ }) ∧
    (∀ e₁ e₂ : Int, e₁ ≤ e₂ →
      calculateOverallScore { a with experience_years := some e₁ } ≤
        calculateOverallScore { a with experience_years := some e₂ }) := by
  refine ⟨calculateOverallScore_upper a, calculateOverallScore_lower a, ?_, ?_⟩
  · intro l₁ l₂ h
    rw [calculateOverallScore_eq, calculateOverallScore_eq]
    simp only [Option.getD_some]
    omega
  · intro e₁ e₂ h
    rw [calculateOverallScore_eq, calculateOverallScore_eq]
    simp only [Option.getD_some]
    omega

/-- A benign analysis used to instantiate the amended C4 bounds. -/
def modestAnalysis : AIAnalysis :=
  { skills := some ["python"]
    categorized_skills := none
    experience_years := some 2
    education := none
    certifications := none
    summary := none }

/-- C4 witness: the amended bounds and monotonicity at concrete inputs. -/
theorem score_bounds_and_monotonicity_witness :
    50 ≤ calculateOverallScore modestAnalysis ∧
    calculateOverallScore { modestAnalysis with skills := some ["a"] } ≤
      calculateOverallScore { modestAnalysis with skills := some ["a", "b"] } ∧
    calculateOverallScore { modestAnalysis with experience_years := some 1 } ≤
      calculateOverallScore { modestAnalysis with experience_years := some 2 } :=
  ⟨(score_bounds_and_monotonicity modestAnalysis).2.1 (by decide),
   (score_bounds_and_monotonicity modestAnalysis).2.2.1 ["a"] ["a", "b"] (by decide),
   (score_bounds_and_monotonicity modestAnalysis).2.2.2 1 2 (by decide)⟩

/-- C9: the Analysis Service Client never raises — every failure mode ends
in the function's `catch`: the resume-analysis and job-match calls return
`null`, extract-skills returns the empty sentinel, and the health check
returns `false`; on a resolved health call the result is `true` exactly
when the response's `status` equals `"healthy"`. -/
theorem python_client_failure_sentinels :
    (∀ (resumeText : String) (fileName : Option String) (e : String),
      analyzeResumeWithAI resumeText fileName (Except.error e) = none) ∧
    (∀ (α : Type) (e : String), calculateJobMatch α (Except.error e) = none) ∧
    (∀ e : String,
      extractSkills (Except.error e) =
        { skills := [], categorized := [], count := 0 }) ∧
    (∀ e : String, checkPythonAPIHealth (Except.error e) = false) ∧
    (∀ d : HealthResp,
      checkPythonAPIHealth (Except.ok d) = true ↔ d.status = some "healthy") := by
  refine ⟨?_, ?_, ?_, ?_, ?_⟩
  · intro resumeText fileName e
    cases fileName <;> rfl
  · intro α e; rfl
  · intro e; rfl
  · intro e; rfl
  · intro d
    simp [checkPythonAPIHealth]

/-- C6: upload validates presence of the file content first — a falsy
`resumeFile` yields 400 `ValidationError` with an empty effect list: no
object-storage write, no analysis call and no DB insert. -/
theorem upload_missing_file_validation (req : UploadReq) (env : UploadEnv)
    (hfile : jsFalsyStr req.resumeFile = true) :
    uploadResume req env = (.badRequest "Resume file is required", []) ∧
    (uploadResume req env).1.statusCode = 400 := by
  have h : uploadResume req env = (.badRequest "Resume file is required", []) := by
    simp [uploadResume, hfile]
  exact ⟨h, by rw [h]; rfl⟩

/-- An environment for the missing-file witness; none of its collaborator
outcomes are reached. -/
def missingFileEnv : UploadEnv :=
  { uploadResult := Except.error "unreached"
    now := 0
    axiosAnalysis := Except.error "unreached"
    nowIso := ""
    dbError := none
    genId := ""
    deleteOk := true }

/-- C6 witness: an upload request without `resumeFile` at a concrete
environment. -/
theorem upload_missing_file_validation_witness :
    uploadResume { userId := "u1", resumeFile := none, fileName := some "cv.pdf" }
        missingFileEnv =
      (.badRequest "Resume file is required", []) :=
  (upload_missing_file_validation
    { userId := "u1", resumeFile := none, fileName := some "cv.pdf" }
    missingFileEnv (by decide)).1

/-- C1: when the DB insert fails after a successful object-storage write,
the orchestrator deletes the just-uploaded storage object, answers 400
with the DB's error message, and the compensating delete's own outcome
(spec-modelled: `deleteFromSupabase` never raises) does not change that
response. -/
theorem upload_db_failure_compensation (req : UploadReq) (env : UploadEnv)
    (u : UploadResult) (e : DBError)
    (hfile : jsFalsyStr req.resumeFile = false)
    (hup : env.uploadResult = Except.ok u)
    (hdb : env.dbError = some e) :
    (uploadResume req env).1 = .badRequest e.message ∧
    (uploadResume req env).1.statusCode = 400 ∧
    Effect.storageDelete u.path ∈ (uploadResume req env).2 ∧
    (∀ b : Bool,
      (uploadResume req { env with deleteOk := b }).1 = .badRequest e.message) := by
  refine ⟨?_, ?_, ?_, ?_⟩
  · simp [uploadResume, hfile, hup, hdb]
  · simp [uploadResume, hfile, hup, hdb, UploadResponse.statusCode]
  · simp [uploadResume, hfile, hup, hdb]
  · intro b
    simp [uploadResume, hfile, hup, hdb]

/-- Upload result of the C1 witness's storage write. -/
def c1Upload : UploadResult :=
  { publicUrl := "https://storage.example/resumes/r1"
    path := "resumes/r1"
    fileName := "generated.pdf"
    fileSize := 12 }

/-- Environment of the C1 witness: storage write succeeds, analysis times
out, the DB insert fails. -/
def c1Env : UploadEnv :=
  { uploadResult := Except.ok c1Upload
    now := 1700000000000
    axiosAnalysis := Except.error "timeout of 30000ms exceeded"
    nowIso := "2026-02-03T00:00:00.000Z"
    dbError := some { message := "duplicate key value" }
    genId := "unused"
    deleteOk := true }

/-- Request of the C1 witness. -/
def c1Req : UploadReq :=
  { userId := "u1", resumeFile := some "QUJD", fileName := some "cv.pdf" }

/-- C1 witness: the concrete failing insert is compensated and surfaced,
also when the compensating delete itself fails. -/
theorem upload_db_failure_compensation_witness :
    (uploadResume c1Req c1Env).1 = .badRequest "duplicate key value" ∧
    Effect.storageDelete "resumes/r1" ∈ (uploadResume c1Req c1Env).2 ∧
    (uploadResume c1Req { c1Env with deleteOk := false }).1 =
      .badRequest "duplicate key value" :=
  ⟨(upload_db_failure_compensation c1Req c1Env c1Upload
      { message := "duplicate key value" } (by decide) rfl rfl).1,
   (upload_db_failure_compensation c1Req c1Env c1Upload
      { message := "duplicate key value" } (by decide) rfl rfl).2.2.1,
   (upload_db_failure_compensation c1Req c1Env c1Upload
      { message := "duplicate key value" } (by decide) rfl rfl).2.2.2 false⟩

/-- C2: when the analysis client call fails in any way (it returns its
`null` sentinel — covering timeout, network error, malformed response),
the exception from dereferencing `null` is caught locally and an otherwise
successful upload still answers 201, with `analysis_data = null` both in
the response record and in the inserted row. -/
theorem upload_analysis_failure_still_succeeds (req : UploadReq) (env : UploadEnv)
    (u : UploadResult)
    (hfile : jsFalsyStr req.resumeFile = false)
    (hup : env.uploadResult = Except.ok u)
    (hai : ∀ resumeText : String,
      analyzeResumeWithAI resumeText req.fileName env.axiosAnalysis = none)
    (hdb : env.dbError = none) :
    (∃ record : ResumeRecord,
      (uploadResume req env).1 = .created record ∧ record.analysis_data = none) ∧
    (uploadResume req env).1.statusCode = 201 ∧
    (∀ row : InsertRow,
      Effect.dbInsert row ∈ (uploadResume req env).2 → row.analysis_data = none) := by
  refine ⟨⟨?_, ?_, ?_⟩, ?_, ?_⟩
  · exact
      { id := env.genId
        candidate_id := req.userId
        resume_url := u.publicUrl
        storage_path := u.path
        file_name := jsOrStr req.fileName u.fileName
        file_size := u.fileSize
        analysis_data := none }
  · simp [uploadResume, hfile, hup, hdb, hai]
  · rfl
  · simp [uploadResume, hfile, hup, hdb, UploadResponse.statusCode]
  · intro row hrow
    simp [uploadResume, hfile, hup, hdb, hai] at hrow
    rw [hrow]

/-- Upload result of the C2 witness's storage write. -/
def c2Upload : UploadResult :=
  { publicUrl := "https://storage.example/resumes/r2"
    path := "resumes/r2"
    fileName := "gen2.pdf"
    fileSize := 8 }

/-- Environment of the C2 witness: storage write and DB insert succeed,
the analysis call is refused. -/
def c2Env : UploadEnv :=
  { uploadResult := Except.ok c2Upload
    now := 42
    axiosAnalysis := Except.error "connect ECONNREFUSED 127.0.0.1:8000"
    nowIso := "2026-02-03T00:00:01.000Z"
    dbError := none
    genId := "r2id"
    deleteOk := true }

/-- Request of the C2 witness, with a data-URL prefixed file. -/
def c2Req : UploadReq :=
  { userId := "u2"
    resumeFile := some "data:application/pdf;base64,QUJD"
    fileName := some "cv.docx" }

/-- The row the C2 witness's upload inserts. -/
def c2Payload : InsertRow :=
  { candidate_id := "u2"
    resume_url := "https://storage.example/resumes/r2"
    storage_path := "resumes/r2"
    file_name := "cv.docx"
    file_size := 8
    analysis_data := none }

/-- C2 witness: the concrete upload with the analysis service down answers
201 and inserts a row with null `analysis_data`. -/
theorem upload_analysis_failure_still_succeeds_witness :
    (uploadResume c2Req c2Env).1.statusCode = 201 ∧
    c2Payload.analysis_data = none :=
  ⟨(upload_analysis_failure_still_succeeds c2Req c2Env c2Upload (by decide) rfl
      (fun _ => rfl) rfl).2.1,
   (upload_analysis_failure_still_succeeds c2Req c2Env c2Upload (by decide) rfl
      (fun _ => rfl) rfl).2.2 c2Payload (by decide)⟩

/-- A caller-supplied `analysisData` whose score is out of range; the
update handler forwards it to the store unchanged. -/
def overflowAnalysisData : AnalysisData :=
  { skills := []
    categorized_skills := []
    experience_years := 0
    education := []
    certifications := []
    summary := ""
    score := 101
    analyzed_at := "2026-02-03T00:00:03.000Z" }

/-- The row matched by the C5 counterexample's update. -/
def c5BaseRow : ResumeRecord :=
  { id := "r5"
    candidate_id := "u5"
    resume_url := "https://storage.example/resumes/r5"
    storage_path := "resumes/r5"
    file_name := "cv.pdf"
    file_size := 9
    analysis_data := none }

/-- Store outcomes of the C5 counterexample's update: the scoped update
matches `c5BaseRow` and succeeds. -/
def c5UpdateEnv : UpdateEnv :=
  { dbError := none, baseRow := c5BaseRow }

/-- C5 counterexample: the update-analysis path persists a caller-supplied
`analysisData` with `score = 101`, so score ∈ [0,100] is not an invariant
of every operation that writes `analysis_data`. -/
theorem update_analysis_unvalidated_counterexample :
    (updateResumeAnalysis "r5" "u5" (some overflowAnalysisData) c5UpdateEnv).1 =
      UpdateResponse.ok
        { c5BaseRow with
            id := "r5", candidate_id := "u5",
            analysis_data := some overflowAnalysisData } ∧
    overflowAnalysisData.score = 101 ∧
    ¬ overflowAnalysisData.score ≤ 100 := by
  decide

/-- C5 (amended): the upload path does keep the stored score within
[0,100] whenever the service's experience-years value is non-negative
(the stored `experience_years` is that defaulted value), but the
update-analysis path persists the caller-supplied `analysisData` exactly
as received, enforcing nothing. -/
theorem analysis_score_invariant_amended :
    (∀ (req : UploadReq) (env : UploadEnv) (record : ResumeRecord) (d : AnalysisData),
      (uploadResume req env).1 = .created record →
      record.analysis_data = some d →
      0 ≤ d.experience_years →
      0 ≤ d.score ∧ d.score ≤ 100) ∧
    (∀ (resumeId candidateId : String) (analysisData : Option AnalysisData)
        (env : UpdateEnv) (record : ResumeRecord),
      (updateResumeAnalysis resumeId candidateId analysisData env).1 = .ok record →
      record.analysis_data = analysisData) := by
  constructor
  · intro req env record d hcreated hdata hnn
    by_cases hfile : jsFalsyStr req.resumeFile = true
    · simp [uploadResume, hfile] at hcreated
    · rw [Bool.not_eq_true] at hfile
      rcases hup : env.uploadResult with eu | u
      · simp [uploadResume, hfile, hup] at hcreated
      · rcases hdb : env.dbError with _ | e
        · rcases hai : analyzeResumeWithAI
              (extractTextFromBase64 (stripDataUrlPrefix (req.resumeFile.getD ""))
                req.fileName) req.fileName env.axiosAnalysis with _ | a
          · simp [uploadResume, hfile, hup, hdb, hai] at hcreated
            rw [← hcreated] at hdata
            simp at hdata
          · simp [uploadResume, hfile, hup, hdb, hai] at hcreated
            rw [← hcreated] at hdata
            simp at hdata
            subst hdata
            constructor
            · have h50 := calculateOverallScore_lower a (by
                simpa [buildAnalysisData] using hnn)
              have : (0 : Int) ≤ 50 := by norm_num
              simpa [buildAnalysisData] using le_trans this h50
            · simpa [buildAnalysisData] using calculateOverallScore_upper a
        · simp [uploadResume, hfile, hup, hdb] at hcreated
  · intro resumeId candidateId analysisData env record hok
    rcases hdb : env.dbError with _ | e
    · simp [updateResumeAnalysis, hdb] at hok
      rw [← hok]
    · simp [updateResumeAnalysis, hdb] at hok

/-- Upload result of the C5 witness's storage write. -/
def c5Upload : UploadResult :=
  { publicUrl := "https://storage.example/resumes/r5b"
    path := "resumes/r5b"
    fileName := "gen5.pdf"
    fileSize := 9 }

/-- Analysis response of the C5 witness: two skills, four years. -/
def c5Ai : AIAnalysis :=
  { skills := some ["python", "sql"]
    categorized_skills := none
    experience_years := some 4
    education := none
    certifications := none
    summary := some "solid" }

/-- Request of the C5 witness. -/
def c5Req : UploadReq :=
  { userId := "u5", resumeFile := some "QUJD", fileName := some "cv.pdf" }

/-- Environment of the C5 witness: everything succeeds. -/
def c5Env : UploadEnv :=
  { uploadResult := Except.ok c5Upload
    now := 7
    axiosAnalysis := Except.ok c5Ai
    nowIso := "2026-02-03T00:00:02.000Z"
    dbError := none
    genId := "r5row"
    deleteOk := true }

/-- The record the C5 witness's upload creates. -/
def c5Rec : ResumeRecord :=
  { id := "r5row"
    candidate_id := "u5"
    resume_url := "https://storage.example/resumes/r5b"
    storage_path := "resumes/r5b"
    file_name := "cv.pdf"
    file_size := 9
    analysis_data := some (buildAnalysisData c5Ai "2026-02-03T00:00:02.000Z") }

/-- C5 witness: both amended conjuncts at concrete inputs — the upload's
stored score is in range, and the update persists the payload verbatim. -/
theorem analysis_score_invariant_amended_witness :
    (0 ≤ (buildAnalysisData c5Ai "2026-02-03T00:00:02.000Z").score ∧
      (buildAnalysisData c5Ai "2026-02-03T00:00:02.000Z").score ≤ 100) ∧
    ({ c5BaseRow with
        id := "r5", candidate_id := "u5",
        analysis_data := some overflowAnalysisData } : ResumeRecord).analysis_data =
      some overflowAnalysisData :=
  ⟨analysis_score_invariant_amended.1 c5Req c5Env c5Rec
      (buildAnalysisData c5Ai "2026-02-03T00:00:02.000Z") (by decide) rfl (by decide),
   analysis_score_invariant_amended.2 "r5" "u5" (some overflowAnalysisData)
      c5UpdateEnv
      { c5BaseRow with
          id := "r5", candidate_id := "u5",
          analysis_data := some overflowAnalysisData } (by decide)⟩

/-- C7: delete on a record the `(id, candidateId)` scoping does not find
answers 404 with no deletion effect of any kind; when the record exists,
the DB row is deleted first, then (for a truthy `storage_path`) the
storage object, and the 200 response does not depend on the storage
deletion's outcome (spec-modelled: `deleteFromSupabase` never raises). -/
theorem delete_not_found_and_best_effort (resumeId candidateId : String)
    (env : DeleteEnv) :
    (env.selectRow = none →
      deleteResume resumeId candidateId env = (.notFound "Resume not found", []) ∧
      (deleteResume resumeId candidateId env).1.statusCode = 404) ∧
    (∀ row : DeleteRow, env.selectRow = some row →
      (deleteResume resumeId candidateId env).1 = .ok "Resume deleted successfully" ∧
      (deleteResume resumeId candidateId env).1.statusCode = 200 ∧
      (deleteResume resumeId candidateId env).2 =
        [Effect.dbDelete resumeId candidateId] ++
          (if jsFalsyStr row.storage_path then []
           else [Effect.storageDelete (row.storage_path.getD "")]) ∧
      (∀ b : Bool,
        (deleteResume resumeId candidateId { env with storageDeleteOk := b }).1 =
          .ok "Resume deleted successfully")) := by
  constructor
  · intro hnone
    have h : deleteResume resumeId candidateId env =
        (.notFound "Resume not found", []) := by
      simp [deleteResume, hnone]
    exact ⟨h, by rw [h]; rfl⟩
  · intro row hrow
    refine ⟨?_, ?_, ?_, ?_⟩
    · simp [deleteResume, hrow]
    · simp [deleteResume, hrow, DeleteResponse.statusCode]
    · simp [deleteResume, hrow]
    · intro b
      simp [deleteResume, hrow]

/-- The environment of the C7 witness's found case: the scoped select
matches a row with a truthy storage path. -/
def c7RowEnv : DeleteEnv :=
  { selectRow := some { storage_path := some "resumes/r7" }
    storageDeleteOk := true }

/-- The environment of the C7 witness's not-found case. -/
def c7NoneEnv : DeleteEnv :=
  { selectRow := none, storageDeleteOk := true }

/-- C7 witness: the concrete 404 with no effects, and the concrete
DB-then-storage deletion order with the response independent of the
storage outcome. -/
theorem delete_not_found_and_best_effort_witness :
    deleteResume "r0" "u7" c7NoneEnv = (.notFound "Resume not found", []) ∧
    (deleteResume "r7" "u7" c7RowEnv).2 =
      [Effect.dbDelete "r7" "u7", Effect.storageDelete "resumes/r7"] ∧
    (deleteResume "r7" "u7" { c7RowEnv with storageDeleteOk := false }).1 =
      .ok "Resume deleted successfully" := by
  have hn := (delete_not_found_and_best_effort "r0" "u7" c7NoneEnv).1 rfl
  have hs := (delete_not_found_and_best_effort "r7" "u7" c7RowEnv).2
    { storage_path := some "resumes/r7" } rfl
  exact ⟨hn.1, hs.2.2.1.trans (by decide), hs.2.2.2 false⟩

/-- C8: get-one on an existing record answers 403 for a candidate-type
caller who is not the owner, while a reviewer-type caller bypasses the
ownership check and gets the record with 200. -/
theorem get_resume_ownership_check (resumeId userId : String) (env : GetEnv)
    (data : ResumeRecord) (hrow : env.resumeRow = some data) :
    (env.profileUserType = some "candidate" → data.candidate_id ≠ userId →
      getResume resumeId userId env = .forbidden "Unauthorized" ∧
      (getResume resumeId userId env).statusCode = 403) ∧
    (env.profileUserType = some "reviewer" →
      getResume resumeId userId env = .ok data ∧
      (getResume resumeId userId env).statusCode = 200) := by
  constructor
  · intro hprof hown
    have h : getResume resumeId userId env = .forbidden "Unauthorized" := by
      simp [getResume, hrow, hprof, hown]
    exact ⟨h, by rw [h]; rfl⟩
  · intro hprof
    have h : getResume resumeId userId env = .ok data := by
      simp [getResume, hrow, hprof]
    exact ⟨h, by rw [h]; rfl⟩

/-- The record of the C8 witness, owned by `owner8`. -/
def c8Row : ResumeRecord :=
  { id := "r8"
    candidate_id := "owner8"
    resume_url := "https://storage.example/resumes/r8"
    storage_path := "resumes/r8"
    file_name := "cv.pdf"
    file_size := 4
    analysis_data := none }

/-- C8 witness environment: a candidate-type caller. -/
def c8CandEnv : GetEnv :=
  { resumeRow := some c8Row, profileUserType := some "candidate" }

/-- C8 witness environment: a reviewer-type caller. -/
def c8RevEnv : GetEnv :=
  { resumeRow := some c8Row, profileUserType := some "reviewer" }

/-- C8 witness: the concrete non-owner candidate is refused, the concrete
reviewer is served. -/
theorem get_resume_ownership_check_witness :
    getResume "r8" "intruder" c8CandEnv = .forbidden "Unauthorized" ∧
    getResume "r8" "intruder" c8RevEnv = .ok c8Row :=
  ⟨((get_resume_ownership_check "r8" "intruder" c8CandEnv c8Row rfl).1 rfl
      (by decide)).1,
   ((get_resume_ownership_check "r8" "intruder" c8RevEnv c8Row rfl).2 rfl).1⟩

/-- C10 (implicit): the get-one ownership check applies only to callers
whose profile row exists with `user_type = 'candidate'`; any other profile
outcome — including a missing row — bypasses the check and the record is
served with 200. -/
theorem get_resume_nonmatching_profile_bypass (resumeId userId : String)
    (env : GetEnv) (data : ResumeRecord)
    (hrow : env.resumeRow = some data)
    (hprof : env.profileUserType ≠ some "candidate") :
    getResume resumeId userId env = .ok data ∧
    (getResume resumeId userId env).statusCode = 200 := by
  have hb : (env.profileUserType == some "candidate") = false :=
    beq_eq_false_iff_ne.mpr hprof
  have h : getResume resumeId userId env = .ok data := by
    simp [getResume, hrow, hb]
  exact ⟨h, by rw [h]; rfl⟩

/-- The record of the C10 witness, owned by `owner10`. -/
def c10Row : ResumeRecord :=
  { id := "r10"
    candidate_id := "owner10"
    resume_url := "https://storage.example/resumes/r10"
    storage_path := "resumes/r10"
    file_name := "cv.pdf"
    file_size := 5
    analysis_data := none }

/-- C10 witness environment: the caller's profile lookup finds no row. -/
def c10Env : GetEnv :=
  { resumeRow := some c10Row, profileUserType := none }

/-- C10 witness: a caller with no profile row, who is not the owner, still
gets the record. -/
theorem get_resume_nonmatching_profile_bypass_witness :
    getResume "r10" "stranger" c10Env = .ok c10Row ∧
    (getResume "r10" "stranger" c10Env).statusCode = 200 :=
  get_resume_nonmatching_profile_bypass "r10" "stranger" c10Env c10Row rfl
    (by decide)

end JobLink
